import Mathlib

/-!
# Verification of `script.module.bossanova808` (Switchback support module)

Shallow embedding, in Lean 4, of the core logic of the repository:

* `resources/lib/bossanova808/utilities.py` — `clean_art_url` (the Art-URL normalizer);
* `resources/lib/bossanova808/playback.py` — the `Playback` dataclass (derived
  labels, source classification, the addon-playback heuristic, metadata
  enrichment including the `VideoLibrary.GetSeasons` lookup) and the
  `PlaybackList` store (`toJson`, `init`, `load_or_init`, `save_to_file`).

Conventions of the embedding:

* Python `str` values from Kodi info-labels are Lean `String`s; Python's
  truthiness on strings (`""` is falsy) is modelled explicitly.
* Python optional fields are `Option _`; numeric coercion `int(label)` with
  `ValueError → None` is `pyParseInt`.
* JSON values are modelled by the inductive `JValue` (null / int / string /
  array / object — the code paths verified here never produce booleans or
  floats).  Serialized file content is modelled at the parsed-`JValue` level:
  the textual encoding/decoding is performed by Python's `json` standard
  library, which is external to this repository.
* Exceptions that can escape the modelled code are the `PyErr` alternatives of
  an `Except`; string operations are defined over `List Char` so that every
  definition evaluates by kernel reduction.
-/

/-- Errors that the modelled Python code can raise. -/
inductive PyErr where
  /-- Python `TypeError` from `Playback(**d)` meeting an unexpected keyword argument. -/
  | unknownKeyword : PyErr
  /-- Python `TypeError` from `Playback(**x)` where `x` is not a mapping, or `len(x)`
  on a length-less value. -/
  | typeError : PyErr
  /-- Python `AttributeError` from calling `.get` on a non-dict. -/
  | attributeError : PyErr
  /-- Any `OSError` other than `FileNotFoundError` (permissions, disk errors). -/
  | oserror : PyErr
  /-- Model-only: a JSON value stored under a declared `Playback` field does not
  have that field's declared type.  (Python's dynamically-typed constructor
  would accept it; the typed embedding rejects it.  No verified claim depends
  on this corner.) -/
  | typeMismatch : PyErr
  deriving DecidableEq, Repr

/-- JSON values, as produced by `json.loads` / consumed by `json.dumps`.
The code paths verified here never produce booleans or floats, so those
constructors are omitted. -/
inductive JValue where
  | null : JValue
  | int (n : Int) : JValue
  | str (s : String) : JValue
  | arr (elems : List JValue) : JValue
  | obj (pairs : List (String × JValue)) : JValue

/-- Models `isinstance(v, list)` on a decoded JSON value. -/
def JValue.isArr : JValue → Bool
  | .arr _ => true
  | _ => false

/-! ## String helpers (Python semantics over `List Char`) -/

/-- Python `a or b` on two strings: `a` unless `a` is empty. -/
def pyOrS (a b : String) : String := if a = "" then b else a

/-- Python string truthiness: non-empty. -/
def pyTruthyS (s : String) : Bool := s ≠ ""

/-- Python `int` truthiness of an optional int: present and non-zero. -/
def pyTruthyI : Option Int → Bool
  | some n => n ≠ 0
  | none => false

/-- Models `s.lower()` (ASCII case fold — the prefixes compared in this code are
ASCII). -/
def pyLower (s : String) : String := ⟨s.data.map Char.toLower⟩

/-- Models `s.startswith(pre)`. -/
def pyStartsWith (s pre : String) : Bool := pre.data.isPrefixOf s.data

/-- Models `pat in s` (substring containment) on character lists. -/
def listContainsSub (pat : List Char) : List Char → Bool
  | [] => pat.isEmpty
  | c :: rest => pat.isPrefixOf (c :: rest) || listContainsSub pat rest

/-- Python `pat in s` substring test. -/
def pyContains (s pat : String) : Bool := listContainsSub pat.data s.data

/-- Models `int(label) if label else None`, with `ValueError → None`: parses an
optional sign followed by at least one decimal digit; the empty string and
non-numeric strings give `none`. -/
def pyParseInt (s : String) : Option Int :=
  let digits (l : List Char) : Option Nat :=
    if l.isEmpty then none
    else if l.all Char.isDigit then
      some (l.foldl (fun acc c => 10 * acc + (c.toNat - '0'.toNat)) 0)
    else none
  match s.data with
  | '-' :: rest => (digits rest).map (fun n => -(n : Int))
  | '+' :: rest => (digits rest).map (fun n => (n : Int))
  | l => (digits l).map (fun n => (n : Int))

/-- Models `os.path.basename` for POSIX paths: the part after the last `/`. -/
def pyBasename (s : String) : String := ⟨(s.data.reverse.takeWhile (· ≠ '/')).reverse⟩

/-- Models `os.path.dirname` for POSIX paths: everything up to the last `/`, with
trailing slashes stripped unless the head is all slashes; `""` when there is
no slash. -/
def pyDirname (s : String) : String :=
  let head := (s.data.reverse.dropWhile (· ≠ '/')).reverse
  if head.isEmpty then ""
  else if head.all (· = '/') then ⟨head⟩
  else ⟨(head.reverse.dropWhile (· = '/')).reverse⟩

/-! ## The Art-URL normalizer (`utilities.clean_art_url`)

```python
cleaned_url = unquote(kodi_url).replace("image://", "").rstrip("/")
cleaned_url = re.sub(r'^.*?@', '', cleaned_url)
return cleaned_url
```
-/

/-- One hex digit, or `none`. -/
def hexVal (c : Char) : Option Nat :=
  if '0' ≤ c ∧ c ≤ '9' then some (c.toNat - '0'.toNat)
  else if 'a' ≤ c ∧ c ≤ 'f' then some (c.toNat - 'a'.toNat + 10)
  else if 'A' ≤ c ∧ c ≤ 'F' then some (c.toNat - 'A'.toNat + 10)
  else none

/-- Models `urllib.parse.unquote`: decode `%XX` escapes (invalid escapes pass through
unchanged).  Single-byte decoding — the URLs handled by these claims are
ASCII. -/
def unquoteChars : List Char → List Char
  | '%' :: a :: b :: rest =>
    match hexVal a, hexVal b with
    | some ha, some hb => Char.ofNat (16 * ha + hb) :: unquoteChars rest
    | _, _ => '%' :: unquoteChars (a :: b :: rest)
  | c :: rest => c :: unquoteChars rest
  | [] => []

/-- Models `.replace("image://", "")`: removes every (non-overlapping, left-to-right)
occurrence of `image://`, not only a leading one. -/
def stripImageScheme : List Char → List Char
  | 'i' :: 'm' :: 'a' :: 'g' :: 'e' :: ':' :: '/' :: '/' :: rest => stripImageScheme rest
  | c :: rest => c :: stripImageScheme rest
  | [] => []

/-- Models `.rstrip("/")`: removes **all** trailing slashes. -/
def rstripSlashes (l : List Char) : List Char := (l.reverse.dropWhile (· = '/')).reverse

/-- Models `re.sub(r'^.*?@', '', s)`: the non-greedy anchored match removes
everything up to and including the **first** `@` anywhere in the string, or
nothing when there is no `@`. -/
def dropThroughAt (l : List Char) : List Char :=
  match l.dropWhile (· ≠ '@') with
  | [] => l
  | _ :: rest => rest

/-- Models `utilities.clean_art_url`, translated clause for clause from the Python. -/
def clean_art_url (kodi_url : String) : String :=
  ⟨dropThroughAt (rstripSlashes (stripImageScheme (unquoteChars kodi_url.data)))⟩

/-! ## The `Playback` record (`playback.py`) -/

/-- The `Playback` dataclass: one observed playback session.  Fields in
declaration order, all defaulting to `None`. -/
structure Playback where
  file : Option String := none
  path : Option String := none
  type : Option String := none
  source : Option String := none
  dbid : Option Int := none
  tvshowdbid : Option Int := none
  totalseasons : Option Int := none
  title : Option String := none
  label : Option String := none
  label2 : Option String := none
  thumbnail : Option String := none
  fanart : Option String := none
  poster : Option String := none
  icon : Option String := none
  year : Option Int := none
  showtitle : Option String := none
  season : Option Int := none
  episode : Option Int := none
  resumetime : Option Int := none
  totaltime : Option Int := none
  duration : Option Int := none
  channelname : Option String := none
  channelnumberlabel : Option String := none
  channelgroup : Option String := none
  deriving DecidableEq, Repr

instance : Inhabited Playback := ⟨{}⟩

/-- Python truthiness of an optional string: present and non-empty. -/
def pyTruthyOS : Option String → Bool
  | some s => s ≠ ""
  | none => false

/-- Python `a or b` on optional strings (a falsy — `None` or empty — left
operand selects the right operand). -/
def pyOrOS (a b : Option String) : Option String :=
  if pyTruthyOS a then a else b

/-- Models `self.season is not None and self.season >= 0`. -/
def knownNonNeg : Option Int → Bool
  | some n => 0 ≤ n
  | none => false

/-- Models `f"{n:02d}"` for the non-negative ints this code formats. -/
def pad2 (n : Int) : String :=
  if 0 ≤ n ∧ n < 10 then "0" ++ toString n else toString n

/-- Models `Playback.pluginlabel`: the derived display label
(`Showname (2x03) - Episode title` style), translated clause for clause. -/
def Playback.pluginlabel (p : Playback) : String :=
  let base :=
    pyOrS ((pyOrOS (pyOrOS (pyOrOS p.title p.label) p.channelname)
      (if pyTruthyOS p.path then some (pyBasename (p.path.getD "")) else none)).getD "")
      "Unknown"
  let st := p.showtitle.getD ""
  let cn := p.channelname.getD ""
  let core := if pyTruthyOS p.title then p.title.getD "" else base
  let label :=
    if pyTruthyOS p.showtitle then
      if knownNonNeg p.season ∧ knownNonNeg p.episode then
        st ++ " (" ++ toString (p.season.getD 0) ++ "x" ++ pad2 (p.episode.getD 0) ++ ") - " ++ core
      else if knownNonNeg p.season then
        st ++ " (" ++ toString (p.season.getD 0) ++ "x?) - " ++ core
      else
        st ++ " - " ++ core
    else if pyTruthyOS p.channelname then
      if p.source = some "pvr_live" then cn ++ " (PVR Live)"
      else base ++ " (PVR Recording " ++ cn ++ ")"
    else base
  if p.source = some "addon" then label ++ " (Addon)" else label

/-! ## Signals consumed by enrichment

`Playback.update_playback_details` reads the now-playing `ListItem`, the
`xbmc.Player` clock, `xbmc.getInfoLabel` / `xbmc.getCondVisibility` values,
and (for episodes) one `VideoLibrary.GetSeasons` JSON-RPC response.  One
`Signals` value fixes everything the external host reports during one call. -/
structure Signals where
  /-- Signal `item.getPath()` -/
  itemPath : String := ""
  /-- Signal `item.getLabel()` -/
  itemLabel : String := ""
  /-- Signal `item.getLabel2()` -/
  itemLabel2 : String := ""
  /-- Signal `int(xbmc.Player().getTotalTime())` -/
  playerTotalTime : Int := 0
  /-- Signal `int(xbmc.Player().getTime())` -/
  playerTime : Int := 0
  /-- Signal `VideoPlayer.DBID` -/
  dbidLabel : String := ""
  /-- Signal `PVR.IsPlayingTV` -/
  pvrIsPlayingTV : Bool := false
  /-- Signal `PVR.IsPlayingRadio` -/
  pvrIsPlayingRadio : Bool := false
  /-- Signal `ListItem.Path` -/
  listItemPath : String := ""
  /-- Signal `ListItem.Property(Addon.ID)` -/
  addonIdProp : String := ""
  /-- Signal `Container.FolderPath` -/
  containerFolderPath : String := ""
  /-- Signal `VideoPlayer.Title` -/
  videoTitle : String := ""
  /-- Signal `VideoPlayer.ChannelName` -/
  channelName : String := ""
  /-- Signal `VideoPlayer.TVShowTitle` -/
  tvshowTitle : String := ""
  /-- Signal `VideoPlayer.TvShowDBID` -/
  tvshowDbidLabel : String := ""
  /-- Signal `Player.Art(tvshow.poster)` -/
  artTvshowPoster : String := ""
  /-- Signal `Player.Art(poster)` -/
  artPoster : String := ""
  /-- Signal `Player.Art(thumb)` -/
  artThumb : String := ""
  /-- Signal `Player.Art(fanart)` -/
  artFanart : String := ""
  /-- Signal `Player.Art(icon)` -/
  artIcon : String := ""
  /-- Signal `item.getArt('thumb') or ''` -/
  itemArtThumb : String := ""
  /-- Signal `item.getArt('icon') or ''` -/
  itemArtIcon : String := ""
  /-- Signal `VideoPlayer.ChannelNumberLabel` -/
  channelNumberLabel : String := ""
  /-- Signal `VideoPlayer.ChannelGroup` -/
  channelGroup : String := ""
  /-- Signal `VideoPlayer.Year` -/
  yearLabel : String := ""
  /-- Signal `VideoPlayer.Season` -/
  seasonLabel : String := ""
  /-- Signal `VideoPlayer.Episode` -/
  episodeLabel : String := ""
  /-- The decoded `send_kodi_json` return for the `VideoLibrary.GetSeasons`
  request, when enrichment issues it: `none` models a `None` return (RPC reply
  that was not parseable JSON); `some pairs` models a decoded JSON object. -/
  seasonsResponse : Option (List (String × JValue)) := none

/-- The WebDAV / cloud-storage exclusion patterns of `_is_addon_playback`. -/
def webdavPatterns : List String :=
  ["/dav/", "webdav", ".nextcloud.", "owncloud", "/remote.php/", "dropbox", "googledrive", "onedrive"]

/-- The addon-URL-structure indicator substrings of `_is_addon_playback`. -/
def addonIndicators : List String := ["plugin", "addon"]

/-- The loopback hosts accepted by `_is_addon_playback`. -/
def loopbackHosts : List String := ["127.0.0.1", "localhost", "[::1]"]

/-- Models `Playback._is_addon_playback`, translated check for check.  Note the
structure of Method 5 in the source: only the plugin/addon-substring check is
guarded by the WebDAV exclusion; the `Addon.ID`/container re-check and the
loopback-host check sit outside that guard. -/
def Playback.isAddonPlayback (p : Playback) (sig : Signals) : Bool :=
  let pathLower := pyLower (p.path.getD "")
  -- Method 1: plugin:// URL
  if pyStartsWith pathLower "plugin://" then true
  -- Method 2: ListItem.Path
  else if pyStartsWith (pyLower sig.listItemPath) "plugin://" then true
  -- Method 3: an addon ID associated with the current item
  else if pyTruthyS sig.addonIdProp then true
  -- Method 4: container path
  else if pyStartsWith (pyLower sig.containerFolderPath) "plugin://" then true
  -- Method 5: conservative HTTP fallback
  else if pyStartsWith pathLower "http://" || pyStartsWith pathLower "https://" then
    if !(webdavPatterns.any fun pat => pyContains pathLower pat) &&
        (addonIndicators.any fun ind => pyContains pathLower ind) then true
    else if pyTruthyS sig.addonIdProp || pyStartsWith (pyLower sig.containerFolderPath) "plugin://" then
      true
    else if loopbackHosts.any fun host => pyContains pathLower host then true
    else false
  else false

/-- The source-classification chain of `update_playback_details` (the
`if self.dbid: ... elif ... else` ladder), as a function of the record state
at that point (`dbid` and `path` already resolved) and the fixed signals. -/
def Playback.classifySource (p : Playback) (sig : Signals) : String :=
  if pyTruthyI p.dbid then "kodi_library"
  else if sig.pvrIsPlayingTV || sig.pvrIsPlayingRadio then "pvr_live"
  else if pyStartsWith (pyLower (p.path.getD "")) "pvr://recordings/" then "pvr_recording"
  else if p.isAddonPlayback sig then "addon"
  else "file"

/-- Python `len` on a decoded JSON value (`list`, `str` and `dict` have a
length; `None`/`int` raise `TypeError`). -/
def pyLen : JValue → Except PyErr Nat
  | .arr l => .ok l.length
  | .str s => .ok s.length
  | .obj l => .ok l.length
  | _ => .error .typeError

/-- The `VideoLibrary.GetSeasons` response handling at the end of
`update_playback_details`: the value assigned to `totalseasons`, or the
exception the handling raises.  `resp` is the `send_kodi_json` return. -/
def seasonsTotal (resp : Option (List (String × JValue))) : Except PyErr (Option Int) :=
  match resp with
  | none => .ok none                     -- `if not properties_json ... return`
  | some pairs =>
    if pairs.isEmpty then .ok none       -- an empty dict is falsy
    else if (pairs.lookup "result").isNone then .ok none   -- `'result' not in`
    else if (pairs.lookup "error").isSome then .ok none    -- `if 'error' in`
    else
      match pairs.lookup "result" with
      | some (JValue.obj props) =>
        match (props.lookup "limits").getD (JValue.obj []) with
        | JValue.obj lpairs =>
          match lpairs.lookup "total" with
          | some (JValue.int n) => .ok (some n)  -- `isinstance(total_limit, int)`
          | _ =>
            -- total absent or not an int → fall back to `len(properties['seasons'])`
            match props.lookup "seasons" with
            | some v => (pyLen v).map (fun n => some (Int.ofNat n))
            | none => .ok none
        | _ => .error .attributeError    -- `.get('total')` on a non-dict `limits`
      | _ => .error .attributeError      -- `.get('limits', {})` on a non-dict `result`

/-- Models `update_playback_details`, first block: copy path and display labels from
the now-playing item. -/
def updItem (p : Playback) (sig : Signals) : Playback :=
  { p with path := some sig.itemPath, label := some sig.itemLabel,
           label2 := some sig.itemLabel2 }

/-- Models `update_playback_details`, timing block: initialise timing fields from the
player clock, unless the *current* `source` field is `"pvr_live"`. -/
def updTiming (p : Playback) (sig : Signals) : Playback :=
  if p.source ≠ some "pvr_live" then
    { p with totaltime := some sig.playerTotalTime, duration := some sig.playerTotalTime,
             resumetime := some sig.playerTime }
  else p

/-- Models `update_playback_details`, DBID coercion (`ValueError → None`). -/
def updDbid (p : Playback) (sig : Signals) : Playback :=
  { p with dbid := pyParseInt sig.dbidLabel }

/-- Models `update_playback_details`, source classification. -/
def updSource (p : Playback) (sig : Signals) : Playback :=
  { p with source := some (p.classifySource sig) }

/-- Models `update_playback_details`, TITLE block. -/
def updTitle (p : Playback) (sig : Signals) : Playback :=
  if p.source ≠ some "pvr_live" then { p with title := some sig.videoTitle }
  else { p with title := some sig.channelName }

/-- Models `update_playback_details`, MEDIA TYPE block (also resolves
`tvshowdbid` for episodes). -/
def updMediaType (p : Playback) (sig : Signals) : Playback :=
  if pyTruthyS sig.tvshowTitle then
    { p with type := some "episode", tvshowdbid := pyParseInt sig.tvshowDbidLabel }
  else if pyTruthyI p.dbid then { p with type := some "movie" }
  else if pyTruthyS sig.channelName then { p with type := some "video" }
  else { p with type := some "video" }

/-- Models `update_playback_details`, ARTWORK block (each art URL through
`clean_art_url`, with the source's fallback chains). -/
def updArtwork (p : Playback) (sig : Signals) : Playback :=
  { p with
    poster := some (clean_art_url (pyOrS (pyOrS sig.artTvshowPoster sig.artPoster) sig.artThumb)),
    fanart := some (clean_art_url sig.artFanart),
    thumbnail := some (clean_art_url (pyOrS sig.artThumb (pyOrS sig.itemArtThumb ""))),
    icon := some (clean_art_url (pyOrS sig.artIcon (pyOrS sig.itemArtIcon ""))) }

/-- Models `update_playback_details`, OTHER DETAILS block (PVR fields, year,
show title, season, episode). -/
def updOtherDetails (p : Playback) (sig : Signals) : Playback :=
  { p with
    channelname := some sig.channelName,
    channelnumberlabel := some sig.channelNumberLabel,
    channelgroup := some sig.channelGroup,
    year := pyParseInt sig.yearLabel,
    showtitle := some sig.tvshowTitle,
    season := pyParseInt sig.seasonLabel,
    episode := pyParseInt sig.episodeLabel }

/-- Models `update_playback_details`, final block: the seasons lookup, issued only
when `tvshowdbid` is truthy.  Returns the final record state and the
exception that propagates, if any. -/
def updSeasons (p : Playback) (sig : Signals) : Playback × Option PyErr :=
  if pyTruthyI p.tvshowdbid then
    match seasonsTotal sig.seasonsResponse with
    | .ok t => ({ p with totalseasons := t }, none)
    | .error e => (p, some e)
  else (p, none)

/-- Models `Playback.update_playback_details`: the blocks of the Python method, in
statement order.  The method mutates `self` in place; the result is the final
record state together with the exception that propagates, if any (only the
seasons block can raise, and when it does the record keeps the assignments
made so far). -/
def Playback.update_playback_details (p : Playback) (sig : Signals) : Playback × Option PyErr :=
  updSeasons (updOtherDetails (updArtwork (updMediaType (updTitle (updSource
    (updDbid (updTiming (updItem p sig) sig) sig) sig) sig) sig) sig) sig) sig

/-- Whether `update_playback_details` issues the `VideoLibrary.GetSeasons`
JSON-RPC request: exactly when the resolved `tvshowdbid` is truthy. -/
def Playback.issuesSeasonsRequest (p : Playback) (sig : Signals) : Bool :=
  pyTruthyI (if pyTruthyS sig.tvshowTitle then pyParseInt sig.tvshowDbidLabel else p.tvshowdbid)

/-! ## Persistence (`PlaybackList`)

File content is modelled at the parsed-JSON level: `FileRead` is the outcome
of opening and reading the backing file.  `json.dumps`/`json.loads` (Python
standard library) are the identity at this level. -/

/-- What reading the backing file yields. -/
inductive FileRead where
  /-- The file does not exist (`FileNotFoundError`). -/
  | absent : FileRead
  /-- Reading raises some other `OSError` (permissions, disk fault). -/
  | ioError : FileRead
  /-- The file exists but its content is not valid JSON (`json.JSONDecodeError`). -/
  | notJson : FileRead
  /-- The file holds valid JSON decoding to `v`. -/
  | json (v : JValue) : FileRead

/-- Models `json.dumps(None)` / `json.loads("null")` for an optional string field. -/
def encS : Option String → JValue
  | none => .null
  | some s => .str s

/-- JSON encoding of an optional int field. -/
def encI : Option Int → JValue
  | none => .null
  | some n => .int n

/-- Reading an optional-string field back from JSON. -/
def decS : JValue → Except PyErr (Option String)
  | .null => .ok none
  | .str s => .ok (some s)
  | _ => .error .typeMismatch

/-- Reading an optional-int field back from JSON. -/
def decI : JValue → Except PyErr (Option Int)
  | .null => .ok none
  | .int n => .ok (some n)
  | _ => .error .typeMismatch

/-- Models `p.__dict__` / `dataclasses.asdict(p)`: the declared fields, in
declaration order. -/
def toPairs (p : Playback) : List (String × JValue) :=
  [("file", encS p.file), ("path", encS p.path), ("type", encS p.type),
   ("source", encS p.source), ("dbid", encI p.dbid), ("tvshowdbid", encI p.tvshowdbid),
   ("totalseasons", encI p.totalseasons), ("title", encS p.title), ("label", encS p.label),
   ("label2", encS p.label2), ("thumbnail", encS p.thumbnail), ("fanart", encS p.fanart),
   ("poster", encS p.poster), ("icon", encS p.icon), ("year", encI p.year),
   ("showtitle", encS p.showtitle), ("season", encI p.season), ("episode", encI p.episode),
   ("resumetime", encI p.resumetime), ("totaltime", encI p.totaltime),
   ("duration", encI p.duration), ("channelname", encS p.channelname),
   ("channelnumberlabel", encS p.channelnumberlabel), ("channelgroup", encS p.channelgroup)]

/-- The declared field names of the `Playback` dataclass — the keyword
arguments its constructor accepts. -/
def playbackFields : List String :=
  ["file", "path", "type", "source", "dbid", "tvshowdbid", "totalseasons", "title",
   "label", "label2", "thumbnail", "fanart", "poster", "icon", "year", "showtitle",
   "season", "episode", "resumetime", "totaltime", "duration", "channelname",
   "channelnumberlabel", "channelgroup"]

/-- One keyword argument of `Playback(**d)`: assigns the named field, or
raises `TypeError` for a keyword that is not a declared field. -/
def setField (p : Playback) (k : String) (w : JValue) : Except PyErr Playback :=
  if k = "file" then (decS w).map fun v => { p with file := v }
  else if k = "path" then (decS w).map fun v => { p with path := v }
  else if k = "type" then (decS w).map fun v => { p with type := v }
  else if k = "source" then (decS w).map fun v => { p with source := v }
  else if k = "dbid" then (decI w).map fun v => { p with dbid := v }
  else if k = "tvshowdbid" then (decI w).map fun v => { p with tvshowdbid := v }
  else if k = "totalseasons" then (decI w).map fun v => { p with totalseasons := v }
  else if k = "title" then (decS w).map fun v => { p with title := v }
  else if k = "label" then (decS w).map fun v => { p with label := v }
  else if k = "label2" then (decS w).map fun v => { p with label2 := v }
  else if k = "thumbnail" then (decS w).map fun v => { p with thumbnail := v }
  else if k = "fanart" then (decS w).map fun v => { p with fanart := v }
  else if k = "poster" then (decS w).map fun v => { p with poster := v }
  else if k = "icon" then (decS w).map fun v => { p with icon := v }
  else if k = "year" then (decI w).map fun v => { p with year := v }
  else if k = "showtitle" then (decS w).map fun v => { p with showtitle := v }
  else if k = "season" then (decI w).map fun v => { p with season := v }
  else if k = "episode" then (decI w).map fun v => { p with episode := v }
  else if k = "resumetime" then (decI w).map fun v => { p with resumetime := v }
  else if k = "totaltime" then (decI w).map fun v => { p with totaltime := v }
  else if k = "duration" then (decI w).map fun v => { p with duration := v }
  else if k = "channelname" then (decS w).map fun v => { p with channelname := v }
  else if k = "channelnumberlabel" then (decS w).map fun v => { p with channelnumberlabel := v }
  else if k = "channelgroup" then (decS w).map fun v => { p with channelgroup := v }
  else .error .unknownKeyword

/-- Models `Playback(**dict(pairs))`: every field defaults to `None`, each keyword
sets its field, an undeclared keyword raises `TypeError`. -/
def fromPairs (pairs : List (String × JValue)) : Except PyErr Playback :=
  pairs.foldlM (fun p kv => setField p kv.1 kv.2) {}

/-- The `PlaybackList` dataclass: the in-memory sequence and the backing-file
path. -/
structure PlaybackList where
  list : List Playback := []
  file : String := ""

/-- Models `PlaybackList.toJson` (modulo text encoding): the serialized form of the
in-memory sequence, `[p.__dict__ for p in self.list]`. -/
def PlaybackList.toJsonV (pl : PlaybackList) : JValue :=
  .arr (pl.list.map fun p => .obj (toPairs p))

/-- Models `PlaybackList.init`: resets the in-memory list and rewrites the backing
file to the empty JSON array `[]`. -/
def PlaybackList.initStore (pl : PlaybackList) : PlaybackList × FileRead :=
  ({ pl with list := [] }, .json (.arr []))

/-- Outcome of the `for playback in switchback_list_json:` append loop. -/
inductive ReadElems where
  /-- Every element decoded; the final in-memory list. -/
  | ok (l : List Playback) : ReadElems
  /-- Decoding element `decoded.length` raised `e`; the elements appended
  before the fault. -/
  | failed (decoded : List Playback) (e : PyErr) : ReadElems

/-- The element loop of `load_or_init`: appends `Playback(**playback)` for
each array element, stopping at the first element whose construction
raises. -/
def readPlaybacks : List JValue → List Playback → ReadElems
  | [], acc => .ok acc
  | .obj pairs :: rest, acc =>
    match fromPairs pairs with
    | .ok p => readPlaybacks rest (acc ++ [p])
    | .error e => .failed acc e
  | _ :: _, acc => .failed acc .typeError   -- `Playback(**x)` with `x` not a mapping

/-- Outcome of `PlaybackList.load_or_init`: either the method returns, with
the resulting in-memory store and backing file, or an exception propagates to
the caller, leaving the store and file as shown. -/
inductive LoadResult where
  | done (pl : PlaybackList) (disk : FileRead) : LoadResult
  | raised (pl : PlaybackList) (disk : FileRead) (e : PyErr) : LoadResult

/-- Models `PlaybackList.load_or_init`, translated branch for branch.  `disk` is what
reading the backing file yields. -/
def PlaybackList.load_or_init (pl : PlaybackList) (disk : FileRead) : LoadResult :=
  -- `self.list = []` before the `try`
  let pl0 : PlaybackList := { pl with list := [] }
  match disk with
  | .absent =>                                   -- `except FileNotFoundError`
    let (pl1, d1) := pl0.initStore
    .done pl1 d1
  | .notJson =>                                  -- `except json.JSONDecodeError`
    let (pl1, d1) := pl0.initStore
    .done pl1 d1
  | .ioError => .raised pl0 disk .oserror        -- unexpected exceptions propagate
  | .json v =>
    match v with
    | .arr elems =>
      match readPlaybacks elems [] with
      | .ok l => .done { pl0 with list := l } disk
      | .failed pre e => .raised { pl0 with list := pre } disk e
    | _ =>                                       -- `not isinstance(..., list)`
      let (pl1, d1) := pl0.initStore
      .done pl1 d1

/-! ## `PlaybackList.save_to_file` as a crash/interruption trace -/

/-- Where `save_to_file` creates its temporary file: `dir=directory_name` when
`os.path.dirname(self.file)` is non-empty, else `dir=None`, which makes
`tempfile.NamedTemporaryFile` use the system temporary directory. -/
inductive TempLocation where
  | systemTmp : TempLocation
  | sameDir (d : String) : TempLocation
  deriving DecidableEq, Repr

/-- The directory `save_to_file` passes to `tempfile.NamedTemporaryFile`. -/
def saveTempLocation (file : String) : TempLocation :=
  if pyDirname file = "" then .systemTmp else .sameDir (pyDirname file)

/-- The temporary file during `save_to_file`. -/
inductive TempFileState where
  | noFile : TempFileState
  | created : TempFileState
  /-- Mid-`write`: the temporary file holds a proper prefix of the serialized
  content. -/
  | halfWritten : TempFileState
  | full (content : JValue) : TempFileState

/-- Observable on-disk state during `save_to_file`. -/
structure DiskState where
  backing : FileRead
  temp : TempFileState

/-- The sequence of on-disk states traversed by `save_to_file`, starting from
backing-file content `prev`: before the call, after `NamedTemporaryFile`
creates the (empty) temporary file, mid-`temp_file.write(self.toJson())`,
after the write completes, and after `os.replace(temporary_name, self.file)`.
Interruption after `i` steps leaves the disk in state `i` of this list;
`os.replace` is atomic, so no intermediate state between the last two
exists. -/
def PlaybackList.saveTrace (pl : PlaybackList) (prev : FileRead) : List DiskState :=
  [{ backing := prev, temp := .noFile },
   { backing := prev, temp := .created },
   { backing := prev, temp := .halfWritten },
   { backing := prev, temp := .full pl.toJsonV },
   { backing := .json pl.toJsonV, temp := .noFile }]

/-! ## Concrete example inputs used by the claim theorems and witnesses -/

/-- Signals of a fresh live-TV playback: the player reports a live TV channel,
no library DBID, and a running clock. -/
def c1LiveSignals : Signals :=
  { pvrIsPlayingTV := true, playerTotalTime := 1800, playerTime := 120,
    itemPath := "pvr://channels/tv/Seven/123.pvr", channelName := "Seven" }

/-- Signals whose `VideoPlayer.DBID` label is the numeral `"0"` while the
player reports live TV. -/
def c2ZeroDbidSignals : Signals :=
  { dbidLabel := "0", pvrIsPlayingTV := true, itemPath := "movie.mkv" }

/-- A `GetSeasons` response whose `result` is not an object: the handler calls
`.get('limits', {})` on it. -/
def c8MalformedResponse : List (String × JValue) := [("result", JValue.int 5)]

/-- Signals of an episode enrichment (`tvshowdbid` resolves to 7) whose
seasons lookup returns `c8MalformedResponse`. -/
def c8Signals : Signals :=
  { tvshowTitle := "Foo", tvshowDbidLabel := "7",
    seasonsResponse := some c8MalformedResponse }

/-- An http locator on a loopback host whose path also matches the WebDAV
pattern `webdav`. -/
def c9WebdavLoopbackPath : String := "http://127.0.0.1/webdav/x.mp4"

/-- A record playing `c9WebdavLoopbackPath` with no other addon signal
(rules a–d of the heuristic all miss). -/
def c9Playback : Playback := { path := some c9WebdavLoopbackPath }

/-- The record of claim C7: `showtitle="Foo"`, `season=2`, `episode=3`,
`title="Bar"`. -/
def c7Record : Playback :=
  { showtitle := some "Foo", season := some 2, episode := some 3, title := some "Bar" }

/-! ## Shared lemmas -/

theorem decS_encS (x : Option String) : decS (encS x) = .ok x := by cases x <;> rfl

theorem decI_encI (x : Option Int) : decI (encI x) = .ok x := by cases x <;> rfl

/-- Round trip: `Playback(**p.__dict__)` reconstructs `p` field for field. -/
theorem fromPairs_toPairs (p : Playback) : fromPairs (toPairs p) = .ok p := by
  cases p
  simp [fromPairs, toPairs, setField, List.foldlM, decS_encS, decI_encI, Except.map]
  rfl

/-- The element loop consumes a prefix of well-formed serialized records by
appending their decodings. -/
theorem readPlaybacks_append (l : List Playback) (tail : List JValue) (acc : List Playback) :
    readPlaybacks ((l.map fun p => .obj (toPairs p)) ++ tail) acc =
      readPlaybacks tail (acc ++ l) := by
  induction l generalizing acc with
  | nil => simp
  | cons p rest ih => simp [readPlaybacks, fromPairs_toPairs, ih]

/-- A keyword that is not a declared `Playback` field makes the constructor
raise. -/
theorem setField_unknown (p : Playback) (k : String) (w : JValue)
    (hk : k ∉ playbackFields) : setField p k w = .error .unknownKeyword := by
  simp only [playbackFields, List.mem_cons, List.not_mem_nil, or_false, not_or] at hk
  obtain ⟨n1, n2, n3, n4, n5, n6, n7, n8, n9, n10, n11, n12, n13, n14, n15, n16, n17, n18,
    n19, n20, n21, n22, n23, n24⟩ := hk
  simp only [setField, if_neg n1, if_neg n2, if_neg n3, if_neg n4, if_neg n5, if_neg n6,
    if_neg n7, if_neg n8, if_neg n9, if_neg n10, if_neg n11, if_neg n12, if_neg n13,
    if_neg n14, if_neg n15, if_neg n16, if_neg n17, if_neg n18, if_neg n19, if_neg n20,
    if_neg n21, if_neg n22, if_neg n23, if_neg n24]

/-! ## Claim theorems -/

/-- The element loop on a fully well-formed serialized list decodes it in
order. -/
theorem readPlaybacks_map (l : List Playback) :
    readPlaybacks (l.map fun p => .obj (toPairs p)) [] = .ok l := by
  have h := readPlaybacks_append l [] []
  simpa [readPlaybacks] using h

/-- Claim C4 (confirmed).  Round-trip: for every `PlaybackList` with a non-empty
record sequence, saving (whose final on-disk state is the serialized array
`pl.toJsonV`) and then loading the same backing file reproduces the same
sequence of `Playback` records, field for field and in order, and returns
normally. -/
theorem C4_save_load_roundtrip (pl : PlaybackList) (hne : pl.list ≠ []) :
    pl.load_or_init (((pl.saveTrace (.json pl.toJsonV)).getD 4
        ⟨.json pl.toJsonV, .noFile⟩).backing) = .done pl (.json pl.toJsonV) := by
  have h : ((pl.saveTrace (.json pl.toJsonV)).getD 4 ⟨.json pl.toJsonV, .noFile⟩).backing
      = .json pl.toJsonV := rfl
  rw [h]
  simp [PlaybackList.load_or_init, PlaybackList.toJsonV, readPlaybacks_map pl.list]

/-- Witness for C4 at a one-record list. -/
theorem C4_save_load_roundtrip_witness :
    (⟨[c7Record], "profile/switchback_list.json"⟩ : PlaybackList).list ≠ [] ∧
    (⟨[c7Record], "profile/switchback_list.json"⟩ : PlaybackList).load_or_init
        ((((⟨[c7Record], "profile/switchback_list.json"⟩ : PlaybackList).saveTrace
            (.json (PlaybackList.toJsonV ⟨[c7Record], "profile/switchback_list.json"⟩))).getD 4
          ⟨.json (PlaybackList.toJsonV ⟨[c7Record], "profile/switchback_list.json"⟩), .noFile⟩).backing) =
      .done ⟨[c7Record], "profile/switchback_list.json"⟩
        (.json (PlaybackList.toJsonV ⟨[c7Record], "profile/switchback_list.json"⟩)) :=
  ⟨by simp, C4_save_load_roundtrip ⟨[c7Record], "profile/switchback_list.json"⟩ (by simp)⟩

/-- Claim C5 (confirmed).  `load_or_init` recovery: an absent backing file, a
file that is not valid JSON, and JSON that is not an array each reinitialize
the store to an empty in-memory list backed by an empty JSON array, returning
normally; any other I/O failure during the read propagates to the caller
(with the in-memory list already cleared). -/
theorem C5_load_recovery (pl : PlaybackList) (v : JValue) (hv : v.isArr = false) :
    pl.load_or_init .absent = .done { pl with list := [] } (.json (.arr [])) ∧
    pl.load_or_init .notJson = .done { pl with list := [] } (.json (.arr [])) ∧
    pl.load_or_init (.json v) = .done { pl with list := [] } (.json (.arr [])) ∧
    pl.load_or_init .ioError = .raised { pl with list := [] } .ioError .oserror := by
  refine ⟨rfl, rfl, ?_, rfl⟩
  cases v <;> simp_all [PlaybackList.load_or_init, PlaybackList.initStore, JValue.isArr]

/-- Witness for C5: a store whose backing file holds the JSON object `{}` (not
an array) is reinitialized. -/
theorem C5_load_recovery_witness :
    JValue.isArr (.obj []) = false ∧
    PlaybackList.load_or_init ⟨[c7Record], "a/b.json"⟩ (.json (.obj [])) =
      .done { list := [], file := "a/b.json" } (.json (.arr [])) :=
  ⟨rfl, (C5_load_recovery ⟨[c7Record], "a/b.json"⟩ (.obj []) rfl).2.2.1⟩

/-- Claim C10 (confirmed).  A valid JSON array in which some element object
carries a key that is not a declared `Playback` field makes `load_or_init`
raise (`Playback(**d)` rejects the unknown keyword) instead of
reinitializing, with the in-memory list left holding exactly the decoded
records that preceded the faulty element. -/
theorem C10_unknown_key_raises (pl : PlaybackList) (goods : List Playback) (k : String)
    (w : JValue) (rest : List JValue) (hk : k ∉ playbackFields) :
    pl.load_or_init (.json (.arr
        ((goods.map fun p => .obj (toPairs p)) ++ JValue.obj [(k, w)] :: rest))) =
      .raised { pl with list := goods }
        (.json (.arr ((goods.map fun p => .obj (toPairs p)) ++ JValue.obj [(k, w)] :: rest)))
        .unknownKeyword := by
  simp [PlaybackList.load_or_init, readPlaybacks_append, readPlaybacks, fromPairs,
    setField_unknown _ _ _ hk]

/-- Witness for C10: one good record, then an object with the undeclared key
`"bogus"`; the decoded prefix survives in memory and the load raises. -/
theorem C10_unknown_key_raises_witness :
    "bogus" ∉ playbackFields ∧
    PlaybackList.load_or_init ⟨[], "a/b.json"⟩ (.json (.arr
        ([c7Record].map (fun p => .obj (toPairs p)) ++ JValue.obj [("bogus", .null)] :: []))) =
      .raised { list := [c7Record], file := "a/b.json" }
        (.json (.arr ([c7Record].map (fun p => .obj (toPairs p)) ++
          JValue.obj [("bogus", .null)] :: []))) .unknownKeyword :=
  ⟨by decide, C10_unknown_key_raises ⟨[], "a/b.json"⟩ [c7Record] "bogus" .null [] (by decide)⟩

/-- Claim C7 (confirmed).  Label precedence: `showtitle="Foo"`, `season=2`,
`episode=3`, `title="Bar"` gives `"Foo (2x03) - Bar"` (episode zero-padded to
two digits); the same record with `season=-1` gives `"Foo - Bar"` (the
season/episode segment needs both values known and non-negative); and with
`source="addon"` the label gains the literal suffix `" (Addon)"`. -/
theorem C7_label_precedence :
    c7Record.pluginlabel = "Foo (2x03) - Bar" ∧
    Playback.pluginlabel { c7Record with season := some (-1) } = "Foo - Bar" ∧
    Playback.pluginlabel { c7Record with source := some "addon" } = "Foo (2x03) - Bar (Addon)" := by
  refine ⟨by decide, by decide, by decide⟩

/-- The timing fields after enrichment are governed by the record's source
field *before* the call (the timing block runs before classification). -/
theorem update_timing_fields (p : Playback) (sig : Signals) :
    (p.update_playback_details sig).1.resumetime
        = (if p.source = some "pvr_live" then p.resumetime else some sig.playerTime) ∧
    (p.update_playback_details sig).1.totaltime
        = (if p.source = some "pvr_live" then p.totaltime else some sig.playerTotalTime) := by
  constructor <;>
  · unfold Playback.update_playback_details updSeasons updOtherDetails updArtwork updMediaType
      updTitle updSource updDbid updTiming updItem
    by_cases h : p.source = some "pvr_live" <;> simp [h] <;> (repeat' split) <;> rfl

/-- Claim C1 (corrected), counterexample.  Enriching a *fresh* `Playback` (all
fields `None`) whose signals classify it as `pvr_live` **does** populate
`resumetime` and `totaltime`: the timing block runs before classification and
is guarded by the record's *prior* `source` (which is `None` on a fresh
record), so the claim that they remain null is false. -/
theorem C1_counterexample :
    (Playback.update_playback_details {} c1LiveSignals).1.source = some "pvr_live" ∧
    (Playback.update_playback_details {} c1LiveSignals).1.resumetime = some 120 ∧
    (Playback.update_playback_details {} c1LiveSignals).1.totaltime = some 1800 :=
  ⟨rfl, rfl, rfl⟩

/-- Claim C1 (corrected), amended claim.  Timing initialization runs *before*
source classification and is skipped exactly when the record's `source` field
was already `"pvr_live"` before the call: such a record keeps its previous
timing fields, while any other record — in particular a fresh one whose
signals will classify it as `pvr_live` — gets `resumetime`/`totaltime`
populated from the player's reported positions. -/
theorem C1_timing_before_classification :
    (∀ (p : Playback) (sig : Signals), p.source = some "pvr_live" →
        (p.update_playback_details sig).1.resumetime = p.resumetime ∧
        (p.update_playback_details sig).1.totaltime = p.totaltime) ∧
    (∀ (p : Playback) (sig : Signals), p.source ≠ some "pvr_live" →
        (p.update_playback_details sig).1.resumetime = some sig.playerTime ∧
        (p.update_playback_details sig).1.totaltime = some sig.playerTotalTime) := by
  refine ⟨fun p sig h => ?_, fun p sig h => ?_⟩
  · have ht := update_timing_fields p sig
    rw [if_pos h, if_pos h] at ht
    exact ht
  · have ht := update_timing_fields p sig
    rw [if_neg h, if_neg h] at ht
    exact ht

/-- Witness for C1's amended claim: a record already marked `pvr_live` keeps
timing `None`; a fresh record enriched with the same live signals gets
`resumetime = 120`. -/
theorem C1_timing_before_classification_witness :
    (Playback.update_playback_details ({ source := some "pvr_live" } : Playback)
        c1LiveSignals).1.resumetime = none ∧
    (Playback.update_playback_details ({} : Playback) c1LiveSignals).1.resumetime = some 120 :=
  ⟨(C1_timing_before_classification.1 { source := some "pvr_live" } c1LiveSignals rfl).1,
   (C1_timing_before_classification.2 {} c1LiveSignals (by simp)).1⟩

/-- Claim C2 (corrected), counterexample.  The claim says a *present resolved*
library dbid always wins the priority chain.  But the code guards with Python
truthiness (`if self.dbid:`), so the resolved dbid `0` (from the label `"0"`)
is treated as absent: with a live-TV flag also set, classification yields
`pvr_live`, not `kodi_library`. -/
theorem C2_counterexample :
    pyParseInt c2ZeroDbidSignals.dbidLabel = some 0 ∧
    (Playback.update_playback_details {} c2ZeroDbidSignals).1.dbid = some 0 ∧
    (Playback.update_playback_details {} c2ZeroDbidSignals).1.source = some "pvr_live" :=
  ⟨rfl, rfl, rfl⟩

/-- Claim C2 (corrected), amended claim.  `classifySource` is a pure function
of the record state and the fixed signals (it is a Lean function, so identical
inputs give identical results), and the priority chain holds with "present"
read as Python truthiness: a present **non-zero** dbid yields `kodi_library`
even if live/recording/addon signals also match; failing that, a live TV or
radio flag yields `pvr_live`; failing that, a locator starting
(case-insensitively) with `pvr://recordings/` yields `pvr_recording`; failing
that, the addon heuristic yields `addon`; otherwise `file`. -/
theorem C2_priority_chain :
    ∀ (p : Playback) (sig : Signals),
      (pyTruthyI p.dbid = true → p.classifySource sig = "kodi_library") ∧
      (pyTruthyI p.dbid = false → (sig.pvrIsPlayingTV || sig.pvrIsPlayingRadio) = true →
          p.classifySource sig = "pvr_live") ∧
      (pyTruthyI p.dbid = false → (sig.pvrIsPlayingTV || sig.pvrIsPlayingRadio) = false →
          pyStartsWith (pyLower (p.path.getD "")) "pvr://recordings/" = true →
          p.classifySource sig = "pvr_recording") ∧
      (pyTruthyI p.dbid = false → (sig.pvrIsPlayingTV || sig.pvrIsPlayingRadio) = false →
          pyStartsWith (pyLower (p.path.getD "")) "pvr://recordings/" = false →
          p.isAddonPlayback sig = true → p.classifySource sig = "addon") ∧
      (pyTruthyI p.dbid = false → (sig.pvrIsPlayingTV || sig.pvrIsPlayingRadio) = false →
          pyStartsWith (pyLower (p.path.getD "")) "pvr://recordings/" = false →
          p.isAddonPlayback sig = false → p.classifySource sig = "file") := by
  intro p sig
  refine ⟨fun h1 => ?_, fun h1 h2 => ?_, fun h1 h2 h3 => ?_, fun h1 h2 h3 h4 => ?_,
    fun h1 h2 h3 h4 => ?_⟩
  · simp [Playback.classifySource, h1]
  · simp [Playback.classifySource, h1, h2]
  · simp [Playback.classifySource, h1, h2, h3]
  · simp [Playback.classifySource, h1, h2, h3, h4]
  · simp [Playback.classifySource, h1, h2, h3, h4]

/-- Witness for C2's amended priority chain: a non-zero dbid beats a live
flag; a zero (falsy) dbid loses to it. -/
theorem C2_priority_chain_witness :
    Playback.classifySource { dbid := some 5, path := some "movie.mkv" } c2ZeroDbidSignals
        = "kodi_library" ∧
    Playback.classifySource { dbid := some 0, path := some "movie.mkv" } c2ZeroDbidSignals
        = "pvr_live" :=
  ⟨(C2_priority_chain { dbid := some 5, path := some "movie.mkv" } c2ZeroDbidSignals).1
      (by decide),
   (C2_priority_chain { dbid := some 0, path := some "movie.mkv" } c2ZeroDbidSignals).2.1
      (by decide) (by decide)⟩

/-- Claim C3 (corrected), counterexample.  For a backing path with no directory
component, `os.path.dirname` is `""`, which is falsy, so `save_to_file`
passes `dir=None` to `tempfile.NamedTemporaryFile`: the temporary file is
created in the *system* temporary directory, not in the backing file's
directory (the working directory).  The "same directory" clause of the claim
is therefore not universal. -/
theorem C3_counterexample :
    pyDirname "switchback_list.json" = "" ∧
    saveTempLocation "switchback_list.json" = .systemTmp :=
  ⟨rfl, rfl⟩

/-- Claim C3 (corrected), amended claim.  When the backing path has a directory
component the temporary file is created in that same directory (otherwise it
falls back to the system temporary directory); and interruption at any of the
intermediate on-disk states of `save_to_file` — before temp creation, with an
empty temp file, mid-write, or with the temp fully written — leaves the
backing file holding its complete pre-write contents, while the final atomic
rename installs the full serialized list. -/
theorem C3_atomic_save :
    (∀ file : String, pyDirname file ≠ "" → saveTempLocation file = .sameDir (pyDirname file)) ∧
    (∀ (pl : PlaybackList) (prev : FileRead) (i : Nat), i < 4 →
        ((pl.saveTrace prev).getD i ⟨prev, .noFile⟩).backing = prev) ∧
    (∀ (pl : PlaybackList) (prev : FileRead),
        ((pl.saveTrace prev).getD 4 ⟨prev, .noFile⟩).backing = .json pl.toJsonV) := by
  refine ⟨fun file h => ?_, fun pl prev i hi => ?_, fun pl prev => rfl⟩
  · simp [saveTempLocation, h]
  · interval_cases i <;> rfl

/-- Witness for C3's amended claim: a path with a directory component keeps
the temp file in that directory, and interrupting a one-record save mid-write
leaves the previous backing content `[]` intact. -/
theorem C3_atomic_save_witness :
    pyDirname "profile/switchback_list.json" ≠ "" ∧
    saveTempLocation "profile/switchback_list.json" = .sameDir "profile" ∧
    ((PlaybackList.saveTrace ⟨[c7Record], "profile/switchback_list.json"⟩
        (.json (.arr []))).getD 2 ⟨.json (.arr []), .noFile⟩).backing = .json (.arr []) :=
  ⟨by decide,
   C3_atomic_save.1 "profile/switchback_list.json" (by decide),
   C3_atomic_save.2.1 ⟨[c7Record], "profile/switchback_list.json"⟩ (.json (.arr [])) 2
     (by decide)⟩

/-- Claim C8 (corrected), counterexample.  A response whose `result` value is
not an object (here the integer `5`) is a *malformed response*, yet the
handler calls `.get('limits', {})` on it and raises `AttributeError`, which
propagates out of enrichment — contradicting the claim that malformed
responses leave `totalseasons` null without raising. -/
theorem C8_counterexample :
    seasonsTotal (some c8MalformedResponse) = .error .attributeError ∧
    (Playback.update_playback_details {} c8Signals).2 = some .attributeError :=
  ⟨rfl, rfl⟩

/-- Claim C8 (corrected), amended claim.  The seasons block runs only for a
truthy `tvshowdbid` (otherwise `totalseasons` is untouched and nothing
raises).  A missing/unparseable response, a response without a `result` key,
and a response carrying an `error` key each leave `totalseasons` null without
raising; a `result` object's integer `limits.total` is taken as the count,
with fallback to the number of entries in `seasons` when `limits` is absent;
but a `result` that is not itself an object raises `AttributeError`, which
propagates. -/
theorem C8_seasons_lookup :
    ∀ (p : Playback) (sig : Signals) (pairs : List (String × JValue)),
      (pyTruthyI p.tvshowdbid = false → updSeasons p sig = (p, none)) ∧
      (pyTruthyI p.tvshowdbid = true →
        (∀ t, seasonsTotal sig.seasonsResponse = .ok t →
            updSeasons p sig = ({ p with totalseasons := t }, none)) ∧
        (∀ e, seasonsTotal sig.seasonsResponse = .error e →
            updSeasons p sig = (p, some e))) ∧
      (seasonsTotal none = .ok none) ∧
      (pairs.lookup "result" = none → seasonsTotal (some pairs) = .ok none) ∧
      (∀ r v, pairs.lookup "result" = some r → pairs.lookup "error" = some v →
          seasonsTotal (some pairs) = .ok none) ∧
      (∀ props lpairs n, pairs.lookup "result" = some (.obj props) →
          pairs.lookup "error" = none →
          props.lookup "limits" = some (.obj lpairs) →
          lpairs.lookup "total" = some (.int n) →
          seasonsTotal (some pairs) = .ok (some n)) ∧
      (∀ props xs, pairs.lookup "result" = some (.obj props) →
          pairs.lookup "error" = none →
          props.lookup "limits" = none →
          props.lookup "seasons" = some (.arr xs) →
          seasonsTotal (some pairs) = .ok (some xs.length)) ∧
      (∀ r, pairs.lookup "result" = some r → pairs.lookup "error" = none →
          (∀ props, r ≠ .obj props) →
          seasonsTotal (some pairs) = .error .attributeError) := by
  intro p sig pairs
  have hne : ∀ r : JValue, pairs.lookup "result" = some r → pairs ≠ [] := by
    intro r hr h
    subst h
    simp [List.lookup] at hr
  refine ⟨fun h => ?_, fun h => ⟨fun t ht => ?_, fun e he => ?_⟩, rfl, fun h => ?_,
    fun r v hr hv => ?_, fun props lpairs n hr he hl ht => ?_,
    fun props xs hr he hl hs => ?_, fun r hr he hobj => ?_⟩
  · simp [updSeasons, h]
  · simp [updSeasons, h, ht]
  · simp [updSeasons, h, he]
  · cases hp : pairs.isEmpty
    · simp [seasonsTotal, hp, h]
    · simp [seasonsTotal, hp]
  · have := hne r hr
    simp [seasonsTotal, List.isEmpty_iff, this, hr, hv]
  · have := hne _ hr
    simp [seasonsTotal, List.isEmpty_iff, this, hr, he, hl, ht]
  · have := hne _ hr
    simp [seasonsTotal, List.isEmpty_iff, this, hr, he, hl, hs, pyLen, Except.map]
  · have hpe : pairs.isEmpty = false := by simp [List.isEmpty_iff, hne _ hr]
    cases r with
    | obj props => exact absurd rfl (hobj props)
    | null => simp [seasonsTotal, hpe, hr, he]
    | int n => simp [seasonsTotal, hpe, hr, he]
    | str t => simp [seasonsTotal, hpe, hr, he]
    | arr xs => simp [seasonsTotal, hpe, hr, he]

/-- Witness for C8's amended claim: the spec's own scenario — a response
carrying an `error` object — leaves `totalseasons` null without raising, and
an integer `limits.total` of `2` is taken as the count. -/
theorem C8_seasons_lookup_witness :
    seasonsTotal (some [("result", JValue.obj []), ("error", JValue.obj [])]) = .ok none ∧
    seasonsTotal (some [("result", JValue.obj
        [("limits", JValue.obj [("total", JValue.int 2)])])]) = .ok (some 2) :=
  ⟨(C8_seasons_lookup {} {} [("result", JValue.obj []), ("error", JValue.obj [])]).2.2.2.2.1
      (JValue.obj []) (JValue.obj []) rfl rfl,
   (C8_seasons_lookup {} {} [("result", JValue.obj
        [("limits", JValue.obj [("total", JValue.int 2)])])]).2.2.2.2.2.1
      [("limits", JValue.obj [("total", JValue.int 2)])] [("total", JValue.int 2)] 2
      rfl rfl rfl rfl⟩

/-- Claim C9 (corrected), counterexample.  `c9WebdavLoopbackPath` is an http
locator matching the WebDAV pattern `webdav`, with no other addon signal set
(rules a–d of the heuristic all miss), yet the heuristic classifies it as
addon: the loopback-host check sits *outside* the WebDAV exclusion, so
`127.0.0.1` wins.  The claim that a WebDAV-matching locator is never
classified addon by this rule is false. -/
theorem C9_counterexample :
    pyContains (pyLower c9WebdavLoopbackPath) "webdav" = true ∧
    c9Playback.isAddonPlayback {} = true ∧
    c9Playback.classifySource {} = "addon" :=
  ⟨rfl, rfl, rfl⟩

/-- Claim C9 (corrected), amended claim.  For an http(s) locator, when the
earlier heuristic rules (plugin-scheme locator, plugin-scheme list-item path,
addon-identifier property, plugin-scheme container path) have not matched,
the heuristic classifies as addon **iff** either the locator avoids every
WebDAV/cloud pattern and contains a plugin/addon-indicating substring, **or**
the locator contains a loopback host — the WebDAV exclusion guards only the
substring check, not the loopback check (the addon-id/container re-checks
inside the http branch are redundant under the precondition). -/
theorem C9_http_fallback :
    ∀ (p : Playback) (sig : Signals),
      pyStartsWith (pyLower (p.path.getD "")) "plugin://" = false →
      pyStartsWith (pyLower sig.listItemPath) "plugin://" = false →
      pyTruthyS sig.addonIdProp = false →
      pyStartsWith (pyLower sig.containerFolderPath) "plugin://" = false →
      (pyStartsWith (pyLower (p.path.getD "")) "http://" ||
        pyStartsWith (pyLower (p.path.getD "")) "https://") = true →
      p.isAddonPlayback sig =
        ((!(webdavPatterns.any fun pat => pyContains (pyLower (p.path.getD "")) pat) &&
            (addonIndicators.any fun ind => pyContains (pyLower (p.path.getD "")) ind)) ||
          (loopbackHosts.any fun host => pyContains (pyLower (p.path.getD "")) host)) := by
  intro p sig h1 h2 h3 h4 h5
  cases hW : webdavPatterns.any fun pat => pyContains (pyLower (p.path.getD "")) pat <;>
    cases hA : addonIndicators.any fun ind => pyContains (pyLower (p.path.getD "")) ind <;>
    cases hL : loopbackHosts.any fun host => pyContains (pyLower (p.path.getD "")) host <;>
    simp only [Playback.isAddonPlayback, h1, h2, h3, h4, h5, hW, hA, hL, Bool.false_eq_true,
      Bool.not_true, Bool.not_false, Bool.false_and, Bool.true_and, Bool.and_false,
      Bool.and_true, Bool.false_or, Bool.true_or, Bool.or_false, Bool.or_true, Bool.or_self,
      if_true, if_false, ite_true, ite_false, reduceIte]

/-- Removing up to the first `@`: a string with no `@` is unchanged. -/
theorem dropThroughAt_no_at (l : List Char) (h : '@' ∉ l) : dropThroughAt l = l := by
  have hd : l.dropWhile (· ≠ '@') = [] := by
    rw [List.dropWhile_eq_nil_iff]
    intro x hx
    simp only [ne_eq, decide_eq_true_eq]
    exact fun heq => h (heq ▸ hx)
  unfold dropThroughAt
  rw [hd]

/-- Removing up to the first `@` keeps exactly the text after it. -/
theorem dropThroughAt_first (pre post : List Char) (h : '@' ∉ pre) :
    dropThroughAt (pre ++ '@' :: post) = post := by
  have hpre : pre.dropWhile (· ≠ '@') = [] := by
    rw [List.dropWhile_eq_nil_iff]
    intro x hx
    simp only [ne_eq, decide_eq_true_eq]
    exact fun heq => h (heq ▸ hx)
  have hat : ('@' :: post).dropWhile (· ≠ '@') = '@' :: post := by
    apply List.dropWhile_cons_of_neg
    simp
  unfold dropThroughAt
  rw [List.dropWhile_append, hpre]
  simp [hat]

/-- Lemma: `.rstrip("/")` absorbs any trailing slash. -/
theorem rstripSlashes_append_slash (l : List Char) :
    rstripSlashes (l ++ ['/']) = rstripSlashes l := by
  simp [rstripSlashes]

/-- Lemma: `.rstrip("/")` leaves a string with no trailing slash unchanged. -/
theorem rstripSlashes_no_trailing (l : List Char) (h : l.getLast? ≠ some '/') :
    rstripSlashes l = l := by
  cases hr : l.reverse with
  | nil =>
    have hl : l = [] := by simpa using congrArg List.reverse hr
    subst hl
    rfl
  | cons c rest =>
    have hc : l.getLast? = some c := by rw [← List.head?_reverse, hr]; rfl
    have hcne : c ≠ '/' := fun hcc => h (hcc ▸ hc)
    unfold rstripSlashes
    rw [hr, List.dropWhile_cons_of_neg (by simpa using hcne), ← hr, List.reverse_reverse]

/-- Claim C6 (corrected), counterexample.  On input `"a//"` the normalizer
returns `"a"`: `rstrip("/")` removes **all** trailing slashes, whereas the
claim ("exactly one trailing '/' stripped ... all but one trailing slash
preserved") predicts `"a/"`. -/
theorem C6_counterexample :
    clean_art_url "a//" = "a" ∧ ("a" : String) ≠ "a/" :=
  ⟨rfl, by decide⟩

/-- Claim C6 (corrected), amended claim.  The normalizer URL-decodes the
input, removes every occurrence of the literal `image://`, strips **all**
trailing slashes, and then removes everything up to and including the
**first** `@` remaining anywhere in the string (nothing when no `@`
remains); in particular text before a first non-leading `@` is also removed,
and no more than zero trailing slashes survive.  The conjuncts pin the
pipeline shape of `clean_art_url` and the behaviour of each stage, ending
with the spec's own example. -/
theorem C6_normalizer :
    (∀ s : String, clean_art_url s =
        ⟨dropThroughAt (rstripSlashes (stripImageScheme (unquoteChars s.data)))⟩) ∧
    (∀ l : List Char,
        stripImageScheme ('i' :: 'm' :: 'a' :: 'g' :: 'e' :: ':' :: '/' :: '/' :: l)
          = stripImageScheme l) ∧
    (∀ l : List Char, rstripSlashes (l ++ ['/']) = rstripSlashes l) ∧
    (∀ l : List Char, l.getLast? ≠ some '/' → rstripSlashes l = l) ∧
    (∀ l : List Char, '@' ∉ l → dropThroughAt l = l) ∧
    (∀ pre post : List Char, '@' ∉ pre → dropThroughAt (pre ++ '@' :: post) = post) ∧
    clean_art_url "image://video%40http%3A%2F%2Fx.com%2Fa.jpg/" = "http://x.com/a.jpg" :=
  ⟨fun _ => rfl, fun _ => rfl, rstripSlashes_append_slash, rstripSlashes_no_trailing,
   dropThroughAt_no_at, dropThroughAt_first, rfl⟩

/-- Witness for C6's amended claim: the `@`-stripping and slash-stripping
conjuncts at concrete inputs. -/
theorem C6_normalizer_witness :
    dropThroughAt ['v', '@', 'x'] = ['x'] ∧ rstripSlashes ['a'] = ['a'] :=
  ⟨C6_normalizer.2.2.2.2.2.1 ['v'] ['x'] (by decide),
   C6_normalizer.2.2.2.1 ['a'] (by decide)⟩

/-- Witness for C9's amended claim, at the concrete loopback/WebDAV locator:
every precondition (rules a–d miss, http scheme) holds and the heuristic
equals the stated disjunction (here: true, via the loopback arm). -/
theorem C9_http_fallback_witness :
    c9Playback.isAddonPlayback {} =
      ((!(webdavPatterns.any fun pat => pyContains (pyLower (c9Playback.path.getD "")) pat) &&
          (addonIndicators.any fun ind => pyContains (pyLower (c9Playback.path.getD "")) ind)) ||
        (loopbackHosts.any fun host => pyContains (pyLower (c9Playback.path.getD "")) host)) :=
  C9_http_fallback c9Playback {} rfl rfl rfl rfl rfl
